import Mathlib

/-!
# Verification of the L0 log-file parser and aggregation engine

Shallow embedding of the live code of `src/l0_app.py` (the third, uncommented
variant, lines 405-635): the text-format parser `process_txt_file`, the
decompression wrapper `decompress_bz2_file`, and the dataset-replacing part of
the `load_and_visualize` callback.  Library calls (`str.split`, `pd.to_numeric`,
`pd.to_datetime`, `bz2.decompress`, `DataFrame` assembly) are embedded by their
documented behaviour on the values this program feeds them; machine floats are
modelled by rationals, pandas' `NaN`/`NaT` missing marker by `none`.
-/

namespace L0

/-! ## Python string primitives

These model the Python `str` methods the source uses.  They are written as
structurally recursive functions over the character list so that every proof
obligation on a concrete input can be evaluated by the kernel. -/

/-- Helper for `pySplit`: `acc` holds the current token's characters reversed. -/
def pySplitAux : List Char → List Char → List String
  | [], acc => if acc = [] then [] else [String.mk acc.reverse]
  | c :: cs, acc =>
    if c.isWhitespace then
      if acc = [] then pySplitAux cs [] else String.mk acc.reverse :: pySplitAux cs []
    else pySplitAux cs (c :: acc)

/-- Python `str.split()` with no argument: split on runs of whitespace,
producing no empty tokens.  Used for `line.split()` at `src/l0_app.py:472`. -/
def pySplit (s : String) : List String :=
  pySplitAux s.toList []

/-- Helper for `pyLines`: `acc` holds the current line's characters reversed. -/
def pyLinesAux : List Char → List Char → List String
  | [], acc => [String.mk acc.reverse]
  | c :: cs, acc =>
    if c = '\n' then String.mk acc.reverse :: pyLinesAux cs []
    else pyLinesAux cs (c :: acc)

/-- Python `str.split("\n")`: split at every newline, keeping empty pieces
(`"".split("\n") == [""]`).  Used at `src/l0_app.py:461`. -/
def pyLines (s : String) : List String :=
  pyLinesAux s.toList []

/-- Python `str.strip()`: remove leading and trailing whitespace. -/
def pyStrip (s : String) : String :=
  String.mk (((s.toList.dropWhile Char.isWhitespace).reverse.dropWhile Char.isWhitespace).reverse)

/-- Python `str.startswith(pre)`. -/
def pyStartsWith (s pre : String) : Bool :=
  pre.toList.isPrefixOf s.toList

/-- Python `sep.join(parts)`. -/
def pyJoin (sep : String) (parts : List String) : String :=
  String.mk (sep.toList.intercalate (parts.map String.toList))

/-! ## `pd.to_numeric(errors="coerce")` on one cell -/

/-- Numeric value of a digit run (most significant first). -/
def charsToNat (ds : List Char) : Nat :=
  ds.foldl (fun a c => 10 * a + (c.toNat - 48)) 0

/-- Strip an optional leading sign; `true` means negative. -/
def splitSign : List Char → Bool × List Char
  | '+' :: cs => (false, cs)
  | '-' :: cs => (true, cs)
  | cs => (false, cs)

/-- Exact rational value `± digits * 10 ^ e'` of a decoded decimal literal.
Written with the normalizing constructor `mkRat` (rather than `Rat.mul` and
`Rat.inv`, which are irreducible) so that concrete inputs evaluate. -/
def ratOfDigits (neg : Bool) (digits : Nat) (e' : Int) : ℚ :=
  let n : Int := if neg then -(digits : Int) else (digits : Int)
  if 0 ≤ e' then mkRat (n * (10 : Int) ^ e'.toNat) 1 else mkRat n ((10 : Nat) ^ (- e').toNat)

/-- Exponent suffix of a float literal: empty, or `e`/`E`, optional sign, digits. -/
def parseExpPart : List Char → Option Int
  | [] => some 0
  | c :: cs =>
    if c = 'e' ∨ c = 'E' then
      match splitSign cs with
      | (neg, ds) =>
        if ds ≠ [] ∧ ds.all Char.isDigit then
          some (if neg then -(charsToNat ds : Int) else (charsToNat ds : Int))
        else none
    else none

/-- Model of `pd.to_numeric(errors="coerce")` on one token
(`src/l0_app.py:502` and `:508`): a decimal literal with optional sign,
fraction and exponent becomes a rational; any other token coerces to the
missing marker `none`. -/
def parseFloat? (s : String) : Option ℚ :=
  match splitSign s.toList with
  | (neg, cs) =>
    let ip := cs.takeWhile Char.isDigit
    let r1 := cs.dropWhile Char.isDigit
    let fr : List Char × List Char :=
      match r1 with
      | '.' :: t => (t.takeWhile Char.isDigit, t.dropWhile Char.isDigit)
      | _ => ([], r1)
    if ip = [] ∧ fr.1 = [] then none
    else
      match parseExpPart fr.2 with
      | none => none
      | some e =>
        some (ratOfDigits neg (charsToNat (ip ++ fr.1)) (e - (fr.1.length : Int)))

/-! ## `pd.to_datetime(errors="coerce")` on one cell -/

structure Timestamp where
  year : Nat
  month : Nat
  day : Nat
  hour : Nat
  minute : Nat
  second : Nat
deriving DecidableEq, Repr

/-- Value of a two-digit pair. -/
def twoDigits (a b : Char) : Nat := 10 * (a.toNat - 48) + (b.toNat - 48)

/-- Model of `pd.to_datetime(errors="coerce")` (`src/l0_app.py:514`) restricted
to the instrument's timestamp shape `YYYY-MM-DDTHH:MM:SS`; any other cell
(including a padded-missing one) coerces to the missing marker `none`. -/
def parseTimestamp (s : String) : Option Timestamp :=
  match s.toList with
  | [y1, y2, y3, y4, '-', m1, m2, '-', d1, d2, 'T', h1, h2, ':', n1, n2, ':', s1, s2] =>
    if ([y1, y2, y3, y4, m1, m2, d1, d2, h1, h2, n1, n2, s1, s2].all Char.isDigit) then
      let mo := twoDigits m1 m2
      let dy := twoDigits d1 d2
      let hr := twoDigits h1 h2
      let mi := twoDigits n1 n2
      let se := twoDigits s1 s2
      if 1 ≤ mo ∧ mo ≤ 12 ∧ 1 ≤ dy ∧ dy ≤ 31 ∧ hr < 24 ∧ mi < 60 ∧ se < 60 then
        some ⟨charsToNat [y1, y2, y3, y4], mo, dy, hr, mi, se⟩
      else none
    else none
  | _ => none

/-! ## Row-wise mean

Rational addition and division are expressed through the normalizing
constructor `mkRat`; the lemmas `qAdd_eq_add`, `qSum_eq_sum` and
`qDivNat_eq_div` below prove they are the ordinary field operations of `ℚ`. -/

/-- Addition of rationals via `mkRat`. -/
def qAdd (a b : ℚ) : ℚ := mkRat (a.num * b.den + b.num * a.den) (a.den * b.den)

/-- Sum of a list of rationals via `mkRat`. -/
def qSum (l : List ℚ) : ℚ := l.foldr qAdd 0

/-- Division of a rational by a natural number via `mkRat`. -/
def qDivNat (a : ℚ) (n : Nat) : ℚ := mkRat a.num (a.den * n)

/-- `DataFrame.mean(axis=1)` on one row: `NaN` cells are skipped (`skipna`
default); a row whose cells are all `NaN` — in particular an empty slice —
gives `NaN`. -/
def meanOfParsed (cells : List (Option ℚ)) : Option ℚ :=
  let vals := cells.filterMap id
  if vals = [] then none else some (qDivNat (qSum vals) vals.length)

/-! ## Section scanner (src/l0_app.py:462-468) -/

/-- The dash literal of `src/l0_app.py:466`: a run of 87 `-` characters. -/
def markerDashes : String := String.mk (List.replicate 87 '-')

/-- The `for i, line in enumerate(lines)` loop: remember the running index,
return one past the first line starting with the marker, else the initial 0. -/
def findDataStartAux : Nat → List String → Nat
  | _, [] => 0
  | i, l :: ls => if pyStartsWith l markerDashes then i + 1 else findDataStartAux (i + 1) ls

/-- `data_start` as computed at `src/l0_app.py:462-468`. -/
def findDataStart (lines : List String) : Nat := findDataStartAux 0 lines

/-! ## Record tokenizer (src/l0_app.py:471-472) -/

/-- `[line.split() for line in data_lines if line.strip() and not line.startswith("#")]`. -/
def tokenizeData (dataLines : List String) : List (List String) :=
  (dataLines.filter (fun l => pyStrip l != "" && !(pyStartsWith l "#"))).map pySplit

/-! ## DataFrame assembly and band aggregation (src/l0_app.py:474-516) -/

/-- Column count of `pd.DataFrame(data, dtype=str)`: the longest row's length
(shorter rows are padded with `NaN`). -/
def dfWidth (rows : List (List String)) : Nat :=
  (rows.map List.length).foldr max 0

/-- One iteration of the aggregation loop (`src/l0_app.py:505-508`) on one row,
for band index `i = prev.length`.  `df.iloc[:, start:end]` is positional over
the *current* frame, which already holds the `prev.length` previously inserted
band columns after the `w` raw columns; so a position `j < w` reads the row's
raw token (padded with `NaN` past the row's end, coerced by `pd.to_numeric`),
while a position `w ≤ j` reads the earlier aggregate `prev[j - w]`. -/
def bandStep (w : Nat) (tokens : List String) (prev : List (Option ℚ)) : Option ℚ :=
  let start := 24 + prev.length * 200
  let stop := min (start + 200) (w + prev.length)
  meanOfParsed ((List.range' start (stop - start)).map (fun j =>
    if j < w then (tokens.get? j).bind parseFloat? else (prev.get? (j - w)).join))

/-- The band values after `n` iterations of the loop. -/
def bandsAux (w : Nat) (tokens : List String) : Nat → List (Option ℚ)
  | 0 => []
  | n + 1 => bandsAux w tokens n ++ [bandStep w tokens (bandsAux w tokens n)]

/-- The ten aggregated band values of one row, in loop order. -/
def bandsOf (w : Nat) (tokens : List String) : List (Option ℚ) := bandsAux w tokens 10

/-- One row of the final frame `df[base_columns + pixel_columns]`
(`src/l0_app.py:495-514`): the string routine code, the coerced timestamp, the
22 coerced numeric metadata fields, and the ten aggregated bands. -/
structure Record where
  routineCode : Option String
  timestamp : Option Timestamp
  numeric : List (Option ℚ)
  bands : List (Option ℚ)
deriving DecidableEq, Repr

/-- Build one record from one tokenized row, in a frame of raw width `w`. -/
def mkRecord (w : Nat) (tokens : List String) : Record where
  routineCode := tokens.get? 0
  timestamp := (tokens.get? 1).bind parseTimestamp
  numeric := (List.range 22).map (fun k => (tokens.get? (k + 2)).bind parseFloat?)
  bands := bandsOf w tokens

/-- Frame assembly (`src/l0_app.py:474-516`).  Empty `data` raises
`ValueError` at line 476; assigning the 24 base names plus
`range(24, df.shape[1])` raises a length mismatch when the frame has fewer
than 24 columns (line 498).  Both exceptions are caught at lines 518-520 and
produce the empty frame. -/
def assemble (rows : List (List String)) : List Record :=
  if rows = [] then []
  else if dfWidth rows < 24 then []
  else rows.map (mkRecord (dfWidth rows))

/-- The body of `process_txt_file` on the already-split line list. -/
def processLines (lines : List String) : List Record :=
  assemble (tokenizeData (lines.drop (findDataStart lines)))

/-- `process_txt_file` of `src/l0_app.py:457-520`: split on newlines, scan for
the marker, tokenize, assemble, aggregate.  Returns the empty list exactly
where the source returns the empty `DataFrame`. -/
def process_txt_file (content : String) : List Record :=
  processLines (pyLines content)

/-- Line 489: `[f"Pixel {i}-{i + 199}" for i in range(1, 2001, 200)]`. -/
def pixel_columns : List String :=
  (List.range' 1 10 200).map (fun i => s!"Pixel {i}-{i + 199}")

/-! ## Decompression and the load callback (src/l0_app.py:448-455, 606-630) -/

/-- `decompress_bz2_file` (`src/l0_app.py:448-455`).  The library call
`bz2.decompress(...).decode("utf-8", errors="replace")` is external: `some t`
models its successful result, `none` the exception raised on corrupt or
truncated input, which the `except` branch turns into the empty string. -/
def decompress_bz2_file (blob : Option String) : String :=
  match blob with
  | some t => t
  | none => ""

/-- Update of the global `uploaded_df` by one `load_and_visualize` call
(`src/l0_app.py:606-630`) with a file selected: `fetched` is `fetch_file`'s
result (`none` on fetch error; the fetched bytes are modelled as
already-decoded text, since the spec's plain-text decode path is a lossy
UTF-8 decode that never fails), and `bz2Blob` is the abstract
`bz2.decompress` outcome used when the url ends in `.bz2`.  The global is
reassigned exactly when a non-empty content string reaches
`process_txt_file`. -/
def load_and_visualize (uploadedDf : Option (List Record)) (isBz2 : Bool)
    (fetched : Option String) (bz2Blob : Option String) : Option (List Record) :=
  match fetched with
  | none => uploadedDf
  | some bytes =>
    if bytes = "" then uploadedDf
    else
      let content := if isBz2 then decompress_bz2_file bz2Blob else bytes
      if content = "" then uploadedDf
      else some (process_txt_file content)

/-- Whether the same call reports "File loaded successfully". -/
def load_reports_success (isBz2 : Bool) (fetched : Option String)
    (bz2Blob : Option String) : Bool :=
  match fetched with
  | none => false
  | some bytes =>
    if bytes = "" then false
    else
      let content := if isBz2 then decompress_bz2_file bz2Blob else bytes
      if content = "" then false
      else !(process_txt_file content).isEmpty

/-! ## Spec-side definitions

These follow the wording of the specification, for comparison with the
code-side definitions above. -/

/-- Spec side, §4.2: a marker line's *content* is a run of the dash character
of at least the configured minimum length. -/
def specIsMarkerLine (minLen : Nat) (l : String) : Bool :=
  decide (minLen ≤ l.length) && l.toList.all (fun c => c == '-')

/-- Spec side, §4.2: the data body begins one past the first marker line;
without a marker line it begins at index 0. -/
def specDataStart (minLen : Nat) (lines : List String) : Nat :=
  match lines.findIdx? (specIsMarkerLine minLen) with
  | some i => i + 1
  | none => 0

/-- Spec side, §4.3: keep a line iff it is nonempty after trimming and its
first non-whitespace character is not the comment marker. -/
def specKeepLine (l : String) : Bool :=
  match (pyStrip l).toList with
  | [] => false
  | c :: _ => c != '#'

/-- Spec side, §4.3: tokenization of the data section. -/
def specTokenize (dataLines : List String) : List (List String) :=
  (dataLines.filter specKeepLine).map pySplit

/-- Spec side, §4.5: the `i`-th fixed-width chunk of the raw pixel token
stream (the tokens after the 24 metadata fields). -/
def specChunk (tokens : List String) (i : Nat) : List String :=
  ((tokens.drop 24).drop (200 * i)).take 200

/-- Spec side, §4.5: the mean of exactly the chunk tokens that parse as
numbers; the missing marker when none parses. -/
def specBandAggregate (chunk : List String) : Option ℚ :=
  let vals := chunk.filterMap parseFloat?
  if vals = [] then none else some (qDivNat (qSum vals) vals.length)

/-! ## Concrete inputs used by counterexamples and witnesses -/

/-- The 24 metadata tokens of the spec's end-to-end example (§8). -/
def metaTokens : List String :=
  ["ABC", "2021-01-01T00:00:00", "1", "1", "5.0", "100", "1", "0", "1", "1", "45.0", "0",
   "90.0", "0", "1", "10.0", "20.1", "20.2", "20.3", "20.4", "50", "900", "1.0", "0"]

/-- A marker line of 90 dashes. -/
def marker90 : String := String.mk (List.replicate 90 '-')

/-- The token list of the end-to-end example's data line. -/
def c7Tokens : List String :=
  metaTokens ++ List.replicate 200 "1.0" ++ List.replicate 200 "3.0"

/-- The end-to-end example's data line: 24 metadata tokens, 200 pixels `1.0`,
200 pixels `3.0`. -/
def c7DataLine : String := pyJoin " " c7Tokens

/-- The end-to-end example's text body: marker, comment, blank, data line. -/
def c7Content : String := pyJoin "\n" [marker90, "# comment", "", c7DataLine]

/-- A data line with 24 metadata tokens and 201 pixels: 200 times `2.0`, then `8.0`. -/
def c1Tokens : List String := metaTokens ++ List.replicate 200 "2.0" ++ ["8.0"]

/-- The same 225 tokens as one whitespace-separated line. -/
def c1DataLine : String := pyJoin " " c1Tokens

/-- Text body holding only `c1DataLine` after the marker. -/
def c1Content : String := pyJoin "\n" [marker90, c1DataLine]

/-- A data line with only 10 tokens. -/
def c2ShortLine : String := "R1 b c d e f g h i j"

/-- The token list of `c2ShortLine`. -/
def c2ShortTokens : List String := ["R1", "b", "c", "d", "e", "f", "g", "h", "i", "j"]

/-- Text body with a 10-token record followed by a full 24-token record. -/
def c2Content : String :=
  pyJoin "\n" [marker90, c2ShortLine, pyJoin " " metaTokens]

/-- A single metadata-only data line, with no marker anywhere. -/
def c9Content : String := pyJoin " " metaTokens

/-- Metadata tokens with an unparseable value in field 16. -/
def c6Tokens : List String := metaTokens.set 16 "bad"

/-- A line starting with 87 dashes followed by a non-dash character. -/
def c4Lines : List String := [markerDashes ++ "x", "A"]

/-- Row with 2024 agreed tokens and one extra token `"9"`. -/
def c10RowA : List String := metaTokens ++ List.replicate 2000 "1.0" ++ ["9"]

/-- Row with 2024 agreed tokens and one extra token `"7"`. -/
def c10RowB : List String := metaTokens ++ List.replicate 2000 "1.0" ++ ["7"]

/-- A record present before a later load. -/
def prevRecord : Record := mkRecord 24 metaTokens

/-! ## Faithfulness of the `mkRat`-based rational arithmetic -/

/-- `qAdd` is ordinary addition of rationals. -/
theorem qAdd_eq_add (a b : ℚ) : qAdd a b = a + b := by
  have ha : ((a.den : ℚ)) ≠ 0 := Nat.cast_ne_zero.mpr a.den_nz
  have hb : ((b.den : ℚ)) ≠ 0 := Nat.cast_ne_zero.mpr b.den_nz
  unfold qAdd
  rw [Rat.mkRat_eq_div]
  push_cast
  conv_rhs => rw [← Rat.num_div_den a, ← Rat.num_div_den b]
  rw [div_add_div _ _ ha hb]
  ring_nf

/-- `qSum` is the ordinary sum of a list of rationals. -/
theorem qSum_eq_sum (l : List ℚ) : qSum l = l.sum := by
  induction l with
  | nil => rfl
  | cons x xs ih =>
    show qAdd x (qSum xs) = (x :: xs).sum
    rw [qAdd_eq_add, ih, List.sum_cons]

/-- `qDivNat` is ordinary division by a natural number. -/
theorem qDivNat_eq_div (a : ℚ) (n : Nat) : qDivNat a n = a / n := by
  unfold qDivNat
  rcases Nat.eq_zero_or_pos n with hn | hn
  · subst hn
    simp [mkRat]
  · rw [Rat.mkRat_eq_div]
    push_cast
    rw [div_mul_eq_div_div, Rat.num_div_den]

/-- Claim C3, counterexample: on corrupt input (the raising branch of
`bz2.decompress`), `decompress_bz2_file` returns the empty string — the same
value as a successful decompression of empty output — instead of surfacing a
typed `DecodeError::Corrupt`. -/
theorem C3_counterexample :
    decompress_bz2_file none = "" ∧
    decompress_bz2_file none = decompress_bz2_file (some "") :=
  ⟨rfl, rfl⟩

/-- Claim C3, amended: on corrupt or truncated bz2 input the decompressor
returns the empty string (no typed error exists); the caller
`load_and_visualize` then treats the empty content as a failed load and leaves
the current dataset untouched, so corruption is reported only as a generic
load failure, indistinguishable from an empty file. -/
theorem C3_amended (prev : Option (List Record)) (bytes : String) (hb : bytes ≠ "") :
    decompress_bz2_file none = "" ∧
    load_and_visualize prev true (some bytes) none = prev := by
  refine ⟨rfl, ?_⟩
  simp [load_and_visualize, decompress_bz2_file, hb]

/-- Claim C3, witness for the amended theorem at a concrete state. -/
theorem C3_amended_witness :
    decompress_bz2_file none = "" ∧
    load_and_visualize (some [prevRecord]) true (some "x") none = some [prevRecord] :=
  C3_amended (some [prevRecord]) "x" (by decide)

/-- The scanning loop of lines 464-468 returns one past the first index whose
line starts with the 87-dash literal, counting from the accumulator. -/
theorem findDataStartAux_eq_findIdx? (ls : List String) : ∀ i : Nat,
    findDataStartAux i ls =
      match ls.findIdx? (fun l => pyStartsWith l markerDashes) with
      | some k => i + k + 1
      | none => 0 := by
  induction ls with
  | nil => intro i; rfl
  | cons a ls ih =>
    intro i
    by_cases h : pyStartsWith a markerDashes
    · simp [findDataStartAux, h, List.findIdx?_cons]
    · rw [findDataStartAux, if_neg (by simp [h]), ih (i + 1), List.findIdx?_cons]
      simp only [h, Bool.false_eq_true, if_false, List.findIdx?_succ]
      cases hf : ls.findIdx? (fun l => pyStartsWith l markerDashes) with
      | none => simp
      | some k => simp; omega

/-- Claim C4, counterexample: a line whose first 87 characters are dashes but
whose content is not a pure dash run is treated as the marker by the code
(`line.startswith("-" * 87)`), while under the spec wording no marker line
exists and the data start should be 0. -/
theorem C4_counterexample :
    findDataStart c4Lines = 1 ∧
    specDataStart 87 c4Lines = 0 ∧
    specIsMarkerLine 87 (markerDashes ++ "x") = false := by
  decide

/-- Claim C4, amended: the data-section start index is one past the index of
the first line that *starts with* a run of 87 dashes (the marker literal's
length), regardless of what follows on that line; if no line starts with 87
dashes, the data start index is 0. -/
theorem C4_amended (lines : List String) :
    findDataStart lines =
      match lines.findIdx? (fun l => pyStartsWith l markerDashes) with
      | some k => k + 1
      | none => 0 := by
  rw [findDataStart, findDataStartAux_eq_findIdx? lines 0]
  cases lines.findIdx? (fun l => pyStartsWith l markerDashes) <;> simp

/-- Claim C4, witness for the amended theorem at a concrete line list. -/
theorem C4_amended_witness :
    findDataStart c4Lines =
      match c4Lines.findIdx? (fun l => pyStartsWith l markerDashes) with
      | some k => k + 1
      | none => 0 :=
  C4_amended c4Lines

/-- Claim C5, counterexample: a line whose first non-whitespace character is
the comment marker but which begins with whitespace is *kept* by the code
(`line.startswith("#")` checks position 0 only) and tokenized, while under the
spec wording it should be dropped. -/
theorem C5_counterexample :
    tokenizeData ["  # c"] = [["#", "c"]] ∧ specTokenize ["  # c"] = [] := by
  decide

/-- Claim C5, amended: tokenization drops exactly the lines that are empty
after trimming whitespace and the lines whose *first character* (at position
0, before any whitespace) is the comment marker, and splits every remaining
line on runs of whitespace; a comment marker preceded by whitespace does not
drop the line. -/
theorem C5_amended (dataLines : List String) :
    tokenizeData dataLines =
      (dataLines.filter (fun l => decide (pyStrip l ≠ "" ∧ ¬ pyStartsWith l "#"))).map pySplit := by
  unfold tokenizeData
  congr 1
  apply List.filter_congr
  intro l _
  apply Bool.eq_iff_iff.mpr
  simp [bne_iff_ne]

/-- Claim C5, witness for the amended theorem at a concrete line list. -/
theorem C5_amended_witness :
    tokenizeData ["  # c", "a b"] =
      (["  # c", "a b"].filter (fun l => decide (pyStrip l ≠ "" ∧ ¬ pyStartsWith l "#"))).map pySplit :=
  C5_amended ["  # c", "a b"]

/-- Claim C8, counterexample: a load whose content decodes but parses to zero
valid records is a failed load, yet it *overwrites* the previously loaded
dataset with the empty one, because `uploaded_df = process_txt_file(...)` runs
before the emptiness check (src/l0_app.py:617-618). -/
theorem C8_counterexample :
    load_reports_success false (some "x") none = false ∧
    load_and_visualize (some [prevRecord]) false (some "x") none = some [] ∧
    (some [] : Option (List Record)) ≠ some [prevRecord] := by
  decide

/-- Claim C8, amended: a load that fails before producing text — no fetch
result, empty fetched bytes, or a bz2 decompression failure yielding empty
text — leaves the previous dataset unchanged; but a load whose text parses to
zero surviving records replaces the previous dataset with the empty one. -/
theorem C8_amended (prev : Option (List Record)) (bytes : String) (bz2Blob : Option String)
    (hb : bytes ≠ "") (hz : decompress_bz2_file bz2Blob = "")
    (hp : process_txt_file bytes = []) :
    load_and_visualize prev false none bz2Blob = prev ∧
    load_and_visualize prev false (some "") bz2Blob = prev ∧
    load_and_visualize prev true (some bytes) bz2Blob = prev ∧
    load_and_visualize prev false (some bytes) bz2Blob = some [] := by
  refine ⟨rfl, by simp [load_and_visualize], ?_, ?_⟩
  · simp [load_and_visualize, hb, hz]
  · simp [load_and_visualize, hb, hp]

/-- Claim C8, witness for the amended theorem at a concrete state. -/
theorem C8_amended_witness :
    load_and_visualize (some [prevRecord]) false none none = some [prevRecord] ∧
    load_and_visualize (some [prevRecord]) false (some "") none = some [prevRecord] ∧
    load_and_visualize (some [prevRecord]) true (some "x") none = some [prevRecord] ∧
    load_and_visualize (some [prevRecord]) false (some "x") none = some [] :=
  C8_amended (some [prevRecord]) "x" none (by decide) rfl (by decide)

/-- The band list after `n` loop iterations has exactly `n` entries. -/
theorem bandsAux_length (w : Nat) (t : List String) : ∀ n, (bandsAux w t n).length = n := by
  intro n
  induction n with
  | zero => rfl
  | succ n ih => simp [bandsAux, ih]

/-- Claim C2, counterexample: in a load holding a 10-token record and a
24-token record, the short record is *not* dropped: both records appear in the
resulting table (the short one padded with missing values), and no drop count
exists anywhere in the code. -/
theorem C2_counterexample :
    (process_txt_file c2Content).length = 2 ∧
    (process_txt_file c2Content).map Record.routineCode = [some "R1", some "ABC"] := by
  decide

/-- Claim C2, amended: a record with fewer than 24 tokens is kept, not
dropped: whenever the tokenized data is nonempty and its widest row has at
least 24 tokens, every record (including the short one) is mapped into the
table, and each field position at or beyond the short record's token count
carries the missing marker.  No drop count is produced. -/
theorem C2_amended (rows : List (List String)) (i k : Nat) (t : List String)
    (hne : rows ≠ []) (hw : 24 ≤ dfWidth rows) (ht : rows.get? i = some t)
    (hk : k < 22) (hsh : t.length ≤ k + 2) :
    (assemble rows).length = rows.length ∧
    (assemble rows).get? i = some (mkRecord (dfWidth rows) t) ∧
    (mkRecord (dfWidth rows) t).numeric.get? k = some none := by
  have hassem : assemble rows = rows.map (mkRecord (dfWidth rows)) := by
    rw [assemble, if_neg hne, if_neg (Nat.not_lt.mpr hw)]
  refine ⟨by rw [hassem, List.length_map], by rw [hassem, List.get?_map, ht]; rfl, ?_⟩
  show ((List.range 22).map (fun k => (t.get? (k + 2)).bind parseFloat?)).get? k = _
  rw [List.get?_map, List.get?_range hk]
  show some ((t.get? (k + 2)).bind parseFloat?) = some none
  rw [List.get?_eq_none.mpr hsh]
  rfl

/-- Claim C2, witness for the amended theorem: the 10-token record of the
counterexample input is kept at position 0 with field 12 missing. -/
theorem C2_amended_witness :
    (assemble [c2ShortTokens, metaTokens]).length = [c2ShortTokens, metaTokens].length ∧
    (assemble [c2ShortTokens, metaTokens]).get? 0 =
      some (mkRecord (dfWidth [c2ShortTokens, metaTokens]) c2ShortTokens) ∧
    (mkRecord (dfWidth [c2ShortTokens, metaTokens]) c2ShortTokens).numeric.get? 10 = some none :=
  C2_amended [c2ShortTokens, metaTokens] 0 10 c2ShortTokens (by decide) (by decide)
    (by decide) (by decide) (by decide)

/-- Claim C6: type coercion maps field 0 to the string routine code, field 1
through the timestamp parser and fields 2-23 through the float parser, with
any per-field parse failure producing the missing marker while the record
itself is kept; no per-field failure is fatal to the record or the load
(the table keeps one record per tokenized row). -/
theorem C6_field_coercion (rows : List (List String)) (i k : Nat) (t : List String)
    (hne : rows ≠ []) (hw : 24 ≤ dfWidth rows) (ht : rows.get? i = some t) (hk : k < 22) :
    (assemble rows).length = rows.length ∧
    (assemble rows).get? i = some (mkRecord (dfWidth rows) t) ∧
    (mkRecord (dfWidth rows) t).routineCode = t.get? 0 ∧
    (mkRecord (dfWidth rows) t).timestamp = (t.get? 1).bind parseTimestamp ∧
    (mkRecord (dfWidth rows) t).numeric.get? k = some ((t.get? (k + 2)).bind parseFloat?) := by
  have hassem : assemble rows = rows.map (mkRecord (dfWidth rows)) := by
    rw [assemble, if_neg hne, if_neg (Nat.not_lt.mpr hw)]
  refine ⟨by rw [hassem, List.length_map], by rw [hassem, List.get?_map, ht]; rfl, rfl, rfl, ?_⟩
  show ((List.range 22).map (fun k => (t.get? (k + 2)).bind parseFloat?)).get? k = _
  rw [List.get?_map, List.get?_range hk]
  rfl

/-- Claim C6, witness: a record whose field 16 is the unparseable token
`"bad"` is kept, and that field coerces to the missing marker. -/
theorem C6_witness :
    ((assemble [c6Tokens]).length = [c6Tokens].length ∧
      (assemble [c6Tokens]).get? 0 = some (mkRecord (dfWidth [c6Tokens]) c6Tokens) ∧
      (mkRecord (dfWidth [c6Tokens]) c6Tokens).routineCode = c6Tokens.get? 0 ∧
      (mkRecord (dfWidth [c6Tokens]) c6Tokens).timestamp = (c6Tokens.get? 1).bind parseTimestamp ∧
      (mkRecord (dfWidth [c6Tokens]) c6Tokens).numeric.get? 14 =
        some ((c6Tokens.get? 16).bind parseFloat?)) ∧
    (c6Tokens.get? 16).bind parseFloat? = none :=
  ⟨C6_field_coercion [c6Tokens] 0 14 c6Tokens (by decide) (by decide) (by decide) (by decide),
    by decide⟩

/-- Claim C9: every record of every successfully parsed input carries exactly
ten aggregate pixel-band columns — a fixed number independent of the raw pixel
count — and the band labels are exactly `"Pixel {start}-{start + 199}"` for
`start = 1, 201, ..., 1801`. -/
theorem C9_fixed_band_columns (content : String) (r : Record)
    (hr : r ∈ process_txt_file content) :
    r.bands.length = 10 ∧
    pixel_columns = ["Pixel 1-200", "Pixel 201-400", "Pixel 401-600", "Pixel 601-800",
      "Pixel 801-1000", "Pixel 1001-1200", "Pixel 1201-1400", "Pixel 1401-1600",
      "Pixel 1601-1800", "Pixel 1801-2000"] := by
  refine ⟨?_, by decide⟩
  rw [process_txt_file, processLines, assemble] at hr
  split at hr
  · simp at hr
  · split at hr
    · simp at hr
    · obtain ⟨t, -, rfl⟩ := List.mem_map.mp hr
      show (bandsOf _ t).length = 10
      exact bandsAux_length _ t 10

/-- Claim C9, witness: the single record of a metadata-only load has ten band
columns, and the label list is the expected one. -/
theorem C9_witness :
    (mkRecord 24 metaTokens).bands.length = 10 ∧
    pixel_columns = ["Pixel 1-200", "Pixel 201-400", "Pixel 401-600", "Pixel 601-800",
      "Pixel 801-1000", "Pixel 1001-1200", "Pixel 1201-1400", "Pixel 1401-1600",
      "Pixel 1601-1800", "Pixel 1801-2000"] :=
  C9_fixed_band_columns c9Content (mkRecord 24 metaTokens) (by decide)

/-- Cell-wise reading of a positional slice equals reading the token sublist:
parsing the cells at positions `s, s+1, ..., s+n-1` of a row (missing past the
row's end) and keeping the successes is the same as parsing the tokens of the
corresponding sublist. -/
theorem cells_filterMap (t : List String) : ∀ (n s : Nat),
    (List.range' s n).filterMap (fun j => (t.get? j).bind parseFloat?) =
    ((t.drop s).take n).filterMap parseFloat? := by
  intro n
  induction n with
  | zero => intro s; simp
  | succ n ih =>
    intro s
    rw [List.range'_succ, List.filterMap_cons]
    rcases Nat.lt_or_ge s t.length with hlt | hge
    · have hdrop : t.drop s = t[s] :: t.drop (s + 1) := List.drop_eq_getElem_cons hlt
      have hget : t.get? s = some t[s] := by
        rw [List.get?_eq_getElem?]
        exact List.getElem?_eq_getElem hlt
      rw [hget, hdrop, List.take_succ_cons, List.filterMap_cons]
      simp only [Option.some_bind]
      cases hpf : parseFloat? t[s] with
      | none => simp only [hpf]; simpa using ih (s + 1)
      | some b => simp only [hpf]; simpa using ih (s + 1)
    · have h1 : t.drop s = [] := List.drop_eq_nil_of_le hge
      have h2 : t.drop (s + 1) = [] := List.drop_eq_nil_of_le (Nat.le_succ_of_le hge)
      have hget : t.get? s = none := List.get?_eq_none.mpr hge
      rw [hget, h1]
      simp only [Option.none_bind]
      rw [ih (s + 1), h2]
      simp

/-- The row mean over a full positional slice of raw cells is the spec-side
aggregate of the corresponding token sublist. -/
theorem meanOfParsed_range' (t : List String) (s : Nat) :
    meanOfParsed ((List.range' s 200).map (fun j => (t.get? j).bind parseFloat?)) =
    specBandAggregate ((t.drop s).take 200) := by
  simp only [meanOfParsed, specBandAggregate]
  rw [List.filterMap_map]
  simp only [Function.id_comp]
  rw [cells_filterMap t 200 s]

/-- When the frame has at least 2024 raw columns, one aggregation step reads
raw token cells only (the slice cannot reach the previously inserted band
columns) and produces exactly the spec-side chunk aggregate. -/
theorem bandStep_pure (w : Nat) (t : List String) (prev : List (Option ℚ))
    (hw : 2024 ≤ w) (hn : prev.length ≤ 9) :
    bandStep w t prev = specBandAggregate (specChunk t prev.length) := by
  have hend : 24 + prev.length * 200 + 200 ≤ w := by omega
  simp only [bandStep]
  have hstop : min (24 + prev.length * 200 + 200) (w + prev.length)
      = 24 + prev.length * 200 + 200 := Nat.min_eq_left (by omega)
  rw [hstop]
  have hsub : 24 + prev.length * 200 + 200 - (24 + prev.length * 200) = 200 := by omega
  rw [hsub]
  have hcells : (List.range' (24 + prev.length * 200) 200).map
      (fun j => if j < w then (t.get? j).bind parseFloat? else (prev.get? (j - w)).join) =
      (List.range' (24 + prev.length * 200) 200).map (fun j => (t.get? j).bind parseFloat?) := by
    apply List.map_congr_left
    intro j hj
    rcases List.mem_range'.mp hj with ⟨i, hi, rfl⟩
    rw [if_pos (by omega)]
  rw [hcells, meanOfParsed_range']
  simp only [specChunk]
  rw [List.drop_drop, Nat.mul_comm 200 prev.length]

/-- When the frame has at least 2024 raw columns, the whole aggregation loop
computes the spec-side chunk aggregates, band by band. -/
theorem bandsAux_pure (w : Nat) (t : List String) (hw : 2024 ≤ w) :
    ∀ n, n ≤ 10 →
      bandsAux w t n = (List.range n).map (fun i => specBandAggregate (specChunk t i)) := by
  intro n
  induction n with
  | zero => intro _; rfl
  | succ n ih =>
    intro hn
    have hle : n ≤ 10 := Nat.le_of_succ_le hn
    have hlen : (bandsAux w t n).length = n := bandsAux_length w t n
    have hstep : bandStep w t (bandsAux w t n) = specBandAggregate (specChunk t n) := by
      rw [bandStep_pure w t _ hw (by omega), hlen]
    show bandsAux w t n ++ [bandStep w t (bandsAux w t n)] = _
    rw [hstep, List.range_succ, List.map_append, ih hle, List.map_cons, List.map_nil]

/-- Token sublists agree when the rows agree position-wise below the cutoff. -/
theorem take_drop_agree (t1 t2 : List String) (a n m : Nat) (hm : a + n ≤ m)
    (hag : ∀ j, j < m → t1.get? j = t2.get? j) :
    (t1.drop a).take n = (t2.drop a).take n := by
  apply List.ext_get?
  intro k
  by_cases hk : k < n
  · rw [List.get?_take hk, List.get?_take hk, List.get?_eq_getElem?, List.get?_eq_getElem?,
      List.getElem?_drop, List.getElem?_drop, ← List.get?_eq_getElem?, ← List.get?_eq_getElem?]
    exact hag (a + k) (by omega)
  · have hx : ∀ (u : List String), ((u.drop a).take n).get? k = none := by
      intro u
      apply List.get?_eq_none.mpr
      calc ((u.drop a).take n).length ≤ n := by
            rw [List.length_take]; exact Nat.min_le_left _ _
        _ ≤ k := Nat.le_of_not_lt hk
    rw [hx t1, hx t2]

/-- Claim C10: two data rows that agree on their first 2024 tokens (the 24
metadata tokens and the 2000 banded pixel tokens) and both extend to at least
that length parse to identical records, whatever the frame widths are: tokens
beyond position 2024 influence no metadata field and no band column.  (Two
rows that differ at some position at or beyond 2024 while agreeing below it
both necessarily have at least 2024 tokens, so this covers every pair the
claim quantifies over.) -/
theorem C10_pixel_cutoff (t1 t2 : List String) (w1 w2 : Nat)
    (hl1 : 2024 ≤ t1.length) (hl2 : 2024 ≤ t2.length)
    (hw1 : t1.length ≤ w1) (hw2 : t2.length ≤ w2)
    (hag : ∀ j, j < 2024 → t1.get? j = t2.get? j) :
    mkRecord w1 t1 = mkRecord w2 t2 := by
  have hww1 : 2024 ≤ w1 := le_trans hl1 hw1
  have hww2 : 2024 ≤ w2 := le_trans hl2 hw2
  simp only [mkRecord, Record.mk.injEq]
  refine ⟨hag 0 (by omega), by rw [hag 1 (by omega)], ?_, ?_⟩
  · apply List.map_congr_left
    intro k hk
    have hk22 : k < 22 := List.mem_range.mp hk
    rw [hag (k + 2) (by omega)]
  · show bandsOf w1 t1 = bandsOf w2 t2
    rw [bandsOf, bandsOf, bandsAux_pure w1 t1 hww1 10 le_rfl, bandsAux_pure w2 t2 hww2 10 le_rfl]
    apply List.map_congr_left
    intro i hi
    have hi10 : i < 10 := List.mem_range.mp hi
    congr 1
    simp only [specChunk]
    rw [List.drop_drop, List.drop_drop]
    exact take_drop_agree t1 t2 (24 + 200 * i) 200 2024 (by omega) hag

/-- Claim C10, witness: two concrete 2025-token rows agreeing on their first
2024 tokens and differing in the last one parse to identical records. -/
theorem C10_witness :
    mkRecord 2025 c10RowA = mkRecord 2025 c10RowB ∧ c10RowA ≠ c10RowB := by
  have hlen24 : (metaTokens ++ List.replicate 2000 "1.0").length = 2024 := by
    rw [List.length_append, List.length_replicate]
    rfl
  have hA : c10RowA = (metaTokens ++ List.replicate 2000 "1.0") ++ ["9"] := by
    show metaTokens ++ (List.replicate 2000 "1.0" ++ ["9"]) = _
    rw [List.append_assoc]
  have hB : c10RowB = (metaTokens ++ List.replicate 2000 "1.0") ++ ["7"] := by
    show metaTokens ++ (List.replicate 2000 "1.0" ++ ["7"]) = _
    rw [List.append_assoc]
  have htA : c10RowA.take 2024 = metaTokens ++ List.replicate 2000 "1.0" := by
    rw [hA, ← hlen24, List.take_left]
  have htB : c10RowB.take 2024 = metaTokens ++ List.replicate 2000 "1.0" := by
    rw [hB, ← hlen24, List.take_left]
  have hlA : c10RowA.length = 2025 := by rw [hA, List.length_append, hlen24]; rfl
  have hlB : c10RowB.length = 2025 := by rw [hB, List.length_append, hlen24]; rfl
  have hag : ∀ j, j < 2024 → c10RowA.get? j = c10RowB.get? j := by
    intro j hj
    calc c10RowA.get? j = (c10RowA.take 2024).get? j := (List.get?_take hj).symm
      _ = (c10RowB.take 2024).get? j := by rw [htA, htB]
      _ = c10RowB.get? j := List.get?_take hj
  refine ⟨C10_pixel_cutoff c10RowA c10RowB 2025 2025 (by omega) (by omega) (by omega)
    (by omega) hag, ?_⟩
  intro h
  have hdrop := congrArg (List.drop 2024) h
  rw [hA, hB, ← hlen24, List.drop_left, List.drop_left] at hdrop
  exact absurd hdrop (by decide)

/-- A successful single-record parse, decomposed stage by stage: the line
split, the scanner, the tokenizer and the width computation are supplied as
already-evaluated facts, and the frame assembly is unfolded symbolically. -/
theorem process_eq_single (content : String) (t : List String) (w : Nat)
    (htok : tokenizeData ((pyLines content).drop (findDataStart (pyLines content))) = [t])
    (hw : dfWidth [t] = w) (hw24 : 24 ≤ w) :
    process_txt_file content = [mkRecord w t] := by
  rw [process_txt_file, processLines, htok, assemble]
  rw [if_neg (by simp), if_neg (by rw [hw]; omega)]
  rw [List.map_cons, List.map_nil, hw]

set_option maxRecDepth 100000 in
/-- Claim C1, code-bug evidence: for a data line with 24 metadata tokens and
201 pixel tokens (200 times `2.0`, then `8.0`), the code's second band
aggregate is `5` — the mean of the raw pixel `8.0` *and the previously
computed first band aggregate `2`*, which the positional slice
`df.iloc[:, 224:424]` reaches because the frame has only 225 raw columns and
the loop has already inserted the band-0 column — whereas the mean of the
parseable tokens of the second chunk of the raw pixel stream is `8`. -/
theorem C1_band_contamination :
    (process_txt_file c1Content).map Record.bands =
      [[some 2, some 5, none, none, none, none, none, none, none, none]] ∧
    specBandAggregate (specChunk (pySplit c1DataLine) 0) = some 2 ∧
    specBandAggregate (specChunk (pySplit c1DataLine) 1) = some 8 := by
  have hproc : process_txt_file c1Content = [mkRecord 225 c1Tokens] :=
    process_eq_single c1Content c1Tokens 225 (by decide) (by decide) (by decide)
  have hb0 : bandStep 225 c1Tokens [] = some 2 := by decide
  have hb1 : bandStep 225 c1Tokens [some 2] = some 5 := by decide
  have hb2 : bandStep 225 c1Tokens [some 2, some 5] = none := by decide
  have hb3 : bandStep 225 c1Tokens [some 2, some 5, none] = none := by decide
  have hb4 : bandStep 225 c1Tokens [some 2, some 5, none, none] = none := by decide
  have hb5 : bandStep 225 c1Tokens [some 2, some 5, none, none, none] = none := by decide
  have hb6 : bandStep 225 c1Tokens [some 2, some 5, none, none, none, none] = none := by decide
  have hb7 : bandStep 225 c1Tokens [some 2, some 5, none, none, none, none, none] = none := by decide
  have hb8 : bandStep 225 c1Tokens [some 2, some 5, none, none, none, none, none, none] = none := by decide
  have hb9 : bandStep 225 c1Tokens [some 2, some 5, none, none, none, none, none, none, none] = none := by decide
  have a1 : bandsAux 225 c1Tokens 1 = [some 2] := by
    show bandsAux 225 c1Tokens 0 ++ [bandStep 225 c1Tokens (bandsAux 225 c1Tokens 0)] = _
    rw [show bandsAux 225 c1Tokens 0 = [] from rfl, hb0]
    rfl
  have a2 : bandsAux 225 c1Tokens 2 = [some 2, some 5] := by
    show bandsAux 225 c1Tokens 1 ++ [bandStep 225 c1Tokens (bandsAux 225 c1Tokens 1)] = _
    rw [show bandsAux 225 c1Tokens 1 = [some 2] from a1, hb1]
    rfl
  have a3 : bandsAux 225 c1Tokens 3 = [some 2, some 5, none] := by
    show bandsAux 225 c1Tokens 2 ++ [bandStep 225 c1Tokens (bandsAux 225 c1Tokens 2)] = _
    rw [show bandsAux 225 c1Tokens 2 = [some 2, some 5] from a2, hb2]
    rfl
  have a4 : bandsAux 225 c1Tokens 4 = [some 2, some 5, none, none] := by
    show bandsAux 225 c1Tokens 3 ++ [bandStep 225 c1Tokens (bandsAux 225 c1Tokens 3)] = _
    rw [show bandsAux 225 c1Tokens 3 = [some 2, some 5, none] from a3, hb3]
    rfl
  have a5 : bandsAux 225 c1Tokens 5 = [some 2, some 5, none, none, none] := by
    show bandsAux 225 c1Tokens 4 ++ [bandStep 225 c1Tokens (bandsAux 225 c1Tokens 4)] = _
    rw [show bandsAux 225 c1Tokens 4 = [some 2, some 5, none, none] from a4, hb4]
    rfl
  have a6 : bandsAux 225 c1Tokens 6 = [some 2, some 5, none, none, none, none] := by
    show bandsAux 225 c1Tokens 5 ++ [bandStep 225 c1Tokens (bandsAux 225 c1Tokens 5)] = _
    rw [show bandsAux 225 c1Tokens 5 = [some 2, some 5, none, none, none] from a5, hb5]
    rfl
  have a7 : bandsAux 225 c1Tokens 7 = [some 2, some 5, none, none, none, none, none] := by
    show bandsAux 225 c1Tokens 6 ++ [bandStep 225 c1Tokens (bandsAux 225 c1Tokens 6)] = _
    rw [show bandsAux 225 c1Tokens 6 = [some 2, some 5, none, none, none, none] from a6, hb6]
    rfl
  have a8 : bandsAux 225 c1Tokens 8 = [some 2, some 5, none, none, none, none, none, none] := by
    show bandsAux 225 c1Tokens 7 ++ [bandStep 225 c1Tokens (bandsAux 225 c1Tokens 7)] = _
    rw [show bandsAux 225 c1Tokens 7 = [some 2, some 5, none, none, none, none, none] from a7, hb7]
    rfl
  have a9 : bandsAux 225 c1Tokens 9 = [some 2, some 5, none, none, none, none, none, none, none] := by
    show bandsAux 225 c1Tokens 8 ++ [bandStep 225 c1Tokens (bandsAux 225 c1Tokens 8)] = _
    rw [show bandsAux 225 c1Tokens 8 = [some 2, some 5, none, none, none, none, none, none] from a8, hb8]
    rfl
  have a10 : bandsAux 225 c1Tokens 10 = [some 2, some 5, none, none, none, none, none, none, none, none] := by
    show bandsAux 225 c1Tokens 9 ++ [bandStep 225 c1Tokens (bandsAux 225 c1Tokens 9)] = _
    rw [show bandsAux 225 c1Tokens 9 = [some 2, some 5, none, none, none, none, none, none, none] from a9, hb9]
    rfl
  have hbands : bandsOf 225 c1Tokens = [some 2, some 5, none, none, none, none, none, none, none, none] := a10
  refine ⟨?_, by decide, by decide⟩
  rw [hproc, List.map_cons, List.map_nil]
  show [bandsOf 225 c1Tokens] = _
  rw [hbands]

set_option maxRecDepth 100000 in
/-- Claim C7, code-bug evidence: on the spec's end-to-end example (marker of
90 dashes, a comment line, a blank line, one data line with the 24 metadata
tokens, 200 pixels `1.0` and 200 pixels `3.0`) the single resulting record has
routine code `"ABC"` and a correctly parsed timestamp, but *three* non-missing
band columns `1, 3, 2`: the third band's slice reads the two previously
inserted aggregate columns, so it is `2` rather than the missing marker, and
the claim's "exactly two pixel-band columns with values 1.0 and 3.0" fails. -/
theorem C7_end_to_end :
    (process_txt_file c7Content).map Record.routineCode = [some "ABC"] ∧
    (process_txt_file c7Content).map Record.timestamp = [some ⟨2021, 1, 1, 0, 0, 0⟩] ∧
    (process_txt_file c7Content).map Record.bands =
      [[some 1, some 3, some 2, none, none, none, none, none, none, none]] ∧
    (process_txt_file c7Content).map (fun r => r.bands.filterMap id) = [[1, 3, 2]] := by
  have hproc : process_txt_file c7Content = [mkRecord 424 c7Tokens] :=
    process_eq_single c7Content c7Tokens 424 (by decide) (by decide) (by decide)
  have hb0 : bandStep 424 c7Tokens [] = some 1 := by decide
  have hb1 : bandStep 424 c7Tokens [some 1] = some 3 := by decide
  have hb2 : bandStep 424 c7Tokens [some 1, some 3] = some 2 := by decide
  have hb3 : bandStep 424 c7Tokens [some 1, some 3, some 2] = none := by decide
  have hb4 : bandStep 424 c7Tokens [some 1, some 3, some 2, none] = none := by decide
  have hb5 : bandStep 424 c7Tokens [some 1, some 3, some 2, none, none] = none := by decide
  have hb6 : bandStep 424 c7Tokens [some 1, some 3, some 2, none, none, none] = none := by decide
  have hb7 : bandStep 424 c7Tokens [some 1, some 3, some 2, none, none, none, none] = none := by decide
  have hb8 : bandStep 424 c7Tokens [some 1, some 3, some 2, none, none, none, none, none] = none := by decide
  have hb9 : bandStep 424 c7Tokens [some 1, some 3, some 2, none, none, none, none, none, none] = none := by decide
  have a1 : bandsAux 424 c7Tokens 1 = [some 1] := by
    show bandsAux 424 c7Tokens 0 ++ [bandStep 424 c7Tokens (bandsAux 424 c7Tokens 0)] = _
    rw [show bandsAux 424 c7Tokens 0 = [] from rfl, hb0]
    rfl
  have a2 : bandsAux 424 c7Tokens 2 = [some 1, some 3] := by
    show bandsAux 424 c7Tokens 1 ++ [bandStep 424 c7Tokens (bandsAux 424 c7Tokens 1)] = _
    rw [show bandsAux 424 c7Tokens 1 = [some 1] from a1, hb1]
    rfl
  have a3 : bandsAux 424 c7Tokens 3 = [some 1, some 3, some 2] := by
    show bandsAux 424 c7Tokens 2 ++ [bandStep 424 c7Tokens (bandsAux 424 c7Tokens 2)] = _
    rw [show bandsAux 424 c7Tokens 2 = [some 1, some 3] from a2, hb2]
    rfl
  have a4 : bandsAux 424 c7Tokens 4 = [some 1, some 3, some 2, none] := by
    show bandsAux 424 c7Tokens 3 ++ [bandStep 424 c7Tokens (bandsAux 424 c7Tokens 3)] = _
    rw [show bandsAux 424 c7Tokens 3 = [some 1, some 3, some 2] from a3, hb3]
    rfl
  have a5 : bandsAux 424 c7Tokens 5 = [some 1, some 3, some 2, none, none] := by
    show bandsAux 424 c7Tokens 4 ++ [bandStep 424 c7Tokens (bandsAux 424 c7Tokens 4)] = _
    rw [show bandsAux 424 c7Tokens 4 = [some 1, some 3, some 2, none] from a4, hb4]
    rfl
  have a6 : bandsAux 424 c7Tokens 6 = [some 1, some 3, some 2, none, none, none] := by
    show bandsAux 424 c7Tokens 5 ++ [bandStep 424 c7Tokens (bandsAux 424 c7Tokens 5)] = _
    rw [show bandsAux 424 c7Tokens 5 = [some 1, some 3, some 2, none, none] from a5, hb5]
    rfl
  have a7 : bandsAux 424 c7Tokens 7 = [some 1, some 3, some 2, none, none, none, none] := by
    show bandsAux 424 c7Tokens 6 ++ [bandStep 424 c7Tokens (bandsAux 424 c7Tokens 6)] = _
    rw [show bandsAux 424 c7Tokens 6 = [some 1, some 3, some 2, none, none, none] from a6, hb6]
    rfl
  have a8 : bandsAux 424 c7Tokens 8 = [some 1, some 3, some 2, none, none, none, none, none] := by
    show bandsAux 424 c7Tokens 7 ++ [bandStep 424 c7Tokens (bandsAux 424 c7Tokens 7)] = _
    rw [show bandsAux 424 c7Tokens 7 = [some 1, some 3, some 2, none, none, none, none] from a7, hb7]
    rfl
  have a9 : bandsAux 424 c7Tokens 9 = [some 1, some 3, some 2, none, none, none, none, none, none] := by
    show bandsAux 424 c7Tokens 8 ++ [bandStep 424 c7Tokens (bandsAux 424 c7Tokens 8)] = _
    rw [show bandsAux 424 c7Tokens 8 = [some 1, some 3, some 2, none, none, none, none, none] from a8, hb8]
    rfl
  have a10 : bandsAux 424 c7Tokens 10 = [some 1, some 3, some 2, none, none, none, none, none, none, none] := by
    show bandsAux 424 c7Tokens 9 ++ [bandStep 424 c7Tokens (bandsAux 424 c7Tokens 9)] = _
    rw [show bandsAux 424 c7Tokens 9 = [some 1, some 3, some 2, none, none, none, none, none, none] from a9, hb9]
    rfl
  have hbands : bandsOf 424 c7Tokens = [some 1, some 3, some 2, none, none, none, none, none, none, none] := a10
  refine ⟨?_, ?_, ?_, ?_⟩
  · rw [hproc, List.map_cons, List.map_nil]
    decide
  · rw [hproc, List.map_cons, List.map_nil]
    decide
  · rw [hproc, List.map_cons, List.map_nil]
    show [bandsOf 424 c7Tokens] = _
    rw [hbands]
  · rw [hproc, List.map_cons, List.map_nil]
    show [(bandsOf 424 c7Tokens).filterMap id] = _
    rw [hbands]
    decide

end L0
